import Mathlib

/-! libusbctrl: the USB control plane state automaton.

Shallow embedding of `src/usbctrl_state.c` (the automaton table `usb_automaton`, the lookups
`usbctrl_next_state` and `usbctrl_is_valid_transition`, the accessors `usbctrl_get_state` and
`usbctrl_set_state`) and of the context types of `src/api/libusbctrl.h`.

Conventions of the embedding:
* C integers are natural numbers; `uint8_t` fields hold values below 256;
* a pointer that may be `NULL` is an `Option`;
* a read outside an array (undefined behaviour in C) makes a lookup return `none`;
* `log_printf` and `request_data_membarrier` do not touch the modelled state and are left out.
-/

namespace usbctrl

/-! ## Types that come from headers outside the sources -/

/-- Modelled from the spec: the declaration of `usb_device_state_t` (`usbctrl_state.h`) is not
among the sources. The state set is the one of the specification (attached, powered, default,
address, configured, their four suspended siblings and the invalid sentinel); each code is the
position of the state's row in `usb_automaton`, which both lookups index by state
(`usb_automaton[current_state]`), so that attached is the least code and invalid the greatest,
as the `VALID_STATE` macro of the source requires. -/
def USB_DEVICE_STATE_ATTACHED : Nat := 0
/-- Modelled from the spec: see `USB_DEVICE_STATE_ATTACHED`. -/
def USB_DEVICE_STATE_POWERED : Nat := 1
/-- Modelled from the spec: see `USB_DEVICE_STATE_ATTACHED`. -/
def USB_DEVICE_STATE_SUSPENDED_POWER : Nat := 2
/-- Modelled from the spec: see `USB_DEVICE_STATE_ATTACHED`. -/
def USB_DEVICE_STATE_SUSPENDED_DEFAULT : Nat := 3
/-- Modelled from the spec: see `USB_DEVICE_STATE_ATTACHED`. -/
def USB_DEVICE_STATE_SUSPENDED_ADDRESS : Nat := 4
/-- Modelled from the spec: see `USB_DEVICE_STATE_ATTACHED`. -/
def USB_DEVICE_STATE_SUSPENDED_CONFIGURED : Nat := 5
/-- Modelled from the spec: see `USB_DEVICE_STATE_ATTACHED`. -/
def USB_DEVICE_STATE_DEFAULT : Nat := 6
/-- Modelled from the spec: see `USB_DEVICE_STATE_ATTACHED`. -/
def USB_DEVICE_STATE_ADDRESS : Nat := 7
/-- Modelled from the spec: see `USB_DEVICE_STATE_ATTACHED`. -/
def USB_DEVICE_STATE_CONFIGURED : Nat := 8
/-- Modelled from the spec: see `USB_DEVICE_STATE_ATTACHED`. -/
def USB_DEVICE_STATE_INVALID : Nat := 9

/-- Modelled from the spec: the declaration of `usb_device_trans_t` (`usbctrl_state.h`) is not
among the sources. These are the nine events of the specification, under the names the source
table gives them. Their numeric codes are unknown: every definition below takes the coding
`code : usb_device_trans_t → Nat` as a parameter, and the theorems that need it assume that
the coding is injective (distinct enumerators) and stays below `0xff` (the `request` field is
a `uint8_t` and the table's comment calls `0xff` an inexistent request). -/
inductive usb_device_trans_t where
  | USB_DEVICE_TRANS_RESET
  | USB_DEVICE_TRANS_BUS_INACTIVE
  | USB_DEVICE_TRANS_BUS_ACTIVE
  | USB_DEVICE_TRANS_HUB_CONFIGURED
  | USB_DEVICE_TRANS_HUB_DECONFIGURED
  | USB_DEVICE_TRANS_HUB_RESET
  | USB_DEVICE_TRANS_ADDRESS_ASSIGNED
  | USB_DEVICE_TRANS_DEV_CONFIGURED
  | USB_DEVICE_TRANS_DEV_DECONFIGURED
  deriving DecidableEq

open usb_device_trans_t

/-- Modelled from the spec: `mbed_error_t` comes from `libc/types.h`, which is not among the
sources; only the two values that `usbctrl_set_state` returns are needed (`none` and
`invalid-parameter` in the error taxonomy of the specification). -/
inductive mbed_error_t where
  | MBED_ERROR_NONE
  | MBED_ERROR_INVPARAM
  deriving DecidableEq

open mbed_error_t

/-! ## The automaton table (`usbctrl_state.c`) -/

/-- The `#define MAX_TRANSITION_STATE 10` of the source. -/
def MAX_TRANSITION_STATE : Nat := 10

/-- The `usb_request_code_transition_t` of the source: a request code and the state it leads
to, both `uint8_t`. -/
structure usb_request_code_transition_t where
  request : Nat
  target_state : Nat
  deriving DecidableEq

/-- One element of the anonymous struct array `usb_automaton`. -/
structure usb_automaton_row where
  state : Nat
  req_trans : List usb_request_code_transition_t
  deriving DecidableEq

/-- The table `usb_automaton` of the source, row by row and entry by entry. -/
def usb_automaton (code : usb_device_trans_t → Nat) : List usb_automaton_row :=
  [ { state := USB_DEVICE_STATE_ATTACHED,
      req_trans :=
        [ ⟨code USB_DEVICE_TRANS_HUB_CONFIGURED, USB_DEVICE_STATE_POWERED⟩,
          ⟨0xff, 0xff⟩, ⟨0xff, 0xff⟩, ⟨0xff, 0xff⟩, ⟨0xff, 0xff⟩, ⟨0xff, 0xff⟩,
          ⟨0xff, 0xff⟩, ⟨0xff, 0xff⟩, ⟨0xff, 0xff⟩, ⟨0xff, 0xff⟩ ] },
    { state := USB_DEVICE_STATE_POWERED,
      req_trans :=
        [ ⟨code USB_DEVICE_TRANS_BUS_INACTIVE, USB_DEVICE_STATE_SUSPENDED_POWER⟩,
          ⟨code USB_DEVICE_TRANS_HUB_RESET, USB_DEVICE_STATE_ATTACHED⟩,
          ⟨code USB_DEVICE_TRANS_HUB_DECONFIGURED, USB_DEVICE_STATE_ATTACHED⟩,
          ⟨code USB_DEVICE_TRANS_RESET, USB_DEVICE_STATE_DEFAULT⟩,
          ⟨0xff, 0xff⟩, ⟨0xff, 0xff⟩, ⟨0xff, 0xff⟩, ⟨0xff, 0xff⟩, ⟨0xff, 0xff⟩,
          ⟨0xff, 0xff⟩ ] },
    { state := USB_DEVICE_STATE_SUSPENDED_POWER,
      req_trans :=
        [ ⟨code USB_DEVICE_TRANS_BUS_ACTIVE, USB_DEVICE_STATE_POWERED⟩,
          ⟨code USB_DEVICE_TRANS_RESET, USB_DEVICE_STATE_DEFAULT⟩,
          ⟨0xff, 0xff⟩, ⟨0xff, 0xff⟩, ⟨0xff, 0xff⟩, ⟨0xff, 0xff⟩, ⟨0xff, 0xff⟩,
          ⟨0xff, 0xff⟩, ⟨0xff, 0xff⟩, ⟨0xff, 0xff⟩ ] },
    { state := USB_DEVICE_STATE_SUSPENDED_DEFAULT,
      req_trans :=
        [ ⟨code USB_DEVICE_TRANS_BUS_ACTIVE, USB_DEVICE_STATE_DEFAULT⟩,
          ⟨code USB_DEVICE_TRANS_RESET, USB_DEVICE_STATE_DEFAULT⟩,
          ⟨0xff, 0xff⟩, ⟨0xff, 0xff⟩, ⟨0xff, 0xff⟩, ⟨0xff, 0xff⟩, ⟨0xff, 0xff⟩,
          ⟨0xff, 0xff⟩, ⟨0xff, 0xff⟩, ⟨0xff, 0xff⟩ ] },
    { state := USB_DEVICE_STATE_SUSPENDED_ADDRESS,
      req_trans :=
        [ ⟨code USB_DEVICE_TRANS_BUS_ACTIVE, USB_DEVICE_STATE_ADDRESS⟩,
          ⟨code USB_DEVICE_TRANS_RESET, USB_DEVICE_STATE_DEFAULT⟩,
          ⟨0xff, 0xff⟩, ⟨0xff, 0xff⟩, ⟨0xff, 0xff⟩, ⟨0xff, 0xff⟩, ⟨0xff, 0xff⟩,
          ⟨0xff, 0xff⟩, ⟨0xff, 0xff⟩, ⟨0xff, 0xff⟩ ] },
    { state := USB_DEVICE_STATE_SUSPENDED_CONFIGURED,
      req_trans :=
        [ ⟨code USB_DEVICE_TRANS_BUS_ACTIVE, USB_DEVICE_STATE_CONFIGURED⟩,
          ⟨code USB_DEVICE_TRANS_RESET, USB_DEVICE_STATE_DEFAULT⟩,
          ⟨0xff, 0xff⟩, ⟨0xff, 0xff⟩, ⟨0xff, 0xff⟩, ⟨0xff, 0xff⟩, ⟨0xff, 0xff⟩,
          ⟨0xff, 0xff⟩, ⟨0xff, 0xff⟩, ⟨0xff, 0xff⟩ ] },
    { state := USB_DEVICE_STATE_DEFAULT,
      req_trans :=
        [ ⟨code USB_DEVICE_TRANS_ADDRESS_ASSIGNED, USB_DEVICE_STATE_ADDRESS⟩,
          ⟨code USB_DEVICE_TRANS_BUS_INACTIVE, USB_DEVICE_STATE_SUSPENDED_DEFAULT⟩,
          ⟨code USB_DEVICE_TRANS_RESET, USB_DEVICE_STATE_DEFAULT⟩,
          ⟨0xff, 0xff⟩, ⟨0xff, 0xff⟩, ⟨0xff, 0xff⟩, ⟨0xff, 0xff⟩, ⟨0xff, 0xff⟩,
          ⟨0xff, 0xff⟩, ⟨0xff, 0xff⟩ ] },
    { state := USB_DEVICE_STATE_ADDRESS,
      req_trans :=
        [ ⟨code USB_DEVICE_TRANS_DEV_CONFIGURED, USB_DEVICE_STATE_CONFIGURED⟩,
          ⟨code USB_DEVICE_TRANS_BUS_INACTIVE, USB_DEVICE_STATE_SUSPENDED_ADDRESS⟩,
          ⟨code USB_DEVICE_TRANS_RESET, USB_DEVICE_STATE_DEFAULT⟩,
          ⟨0xff, 0xff⟩, ⟨0xff, 0xff⟩, ⟨0xff, 0xff⟩, ⟨0xff, 0xff⟩, ⟨0xff, 0xff⟩,
          ⟨0xff, 0xff⟩, ⟨0xff, 0xff⟩ ] },
    { state := USB_DEVICE_STATE_CONFIGURED,
      req_trans :=
        [ ⟨code USB_DEVICE_TRANS_DEV_DECONFIGURED, USB_DEVICE_STATE_ADDRESS⟩,
          ⟨code USB_DEVICE_TRANS_BUS_INACTIVE, USB_DEVICE_STATE_SUSPENDED_CONFIGURED⟩,
          ⟨code USB_DEVICE_TRANS_RESET, USB_DEVICE_STATE_DEFAULT⟩,
          ⟨0xff, 0xff⟩, ⟨0xff, 0xff⟩, ⟨0xff, 0xff⟩, ⟨0xff, 0xff⟩, ⟨0xff, 0xff⟩,
          ⟨0xff, 0xff⟩, ⟨0xff, 0xff⟩ ] },
    { state := USB_DEVICE_STATE_INVALID,
      req_trans :=
        [ ⟨0xff, 0xff⟩, ⟨0xff, 0xff⟩, ⟨0xff, 0xff⟩, ⟨0xff, 0xff⟩, ⟨0xff, 0xff⟩,
          ⟨0xff, 0xff⟩, ⟨0xff, 0xff⟩, ⟨0xff, 0xff⟩, ⟨0xff, 0xff⟩, ⟨0xff, 0xff⟩ ] } ]

/-! ## The lookups -/

/-- The `for` loop of `usbctrl_next_state`, entered at index `i` with `n` iterations left
(`n` is the loop variant `MAX_TRANSITION_STATE - i` of the source): the first entry whose
request is `request` gives its target state, and `0xff` is the fallback after the loop. -/
def usbctrl_next_state_loop (req_trans : List usb_request_code_transition_t) (request : Nat) :
    Nat → Nat → Option Nat
  | 0, _ => some 0xff
  | n + 1, i =>
    match req_trans[i]? with
    | none => none
    | some t =>
      if t.request = request then some t.target_state
      else usbctrl_next_state_loop req_trans request n (i + 1)

/-- The `usbctrl_next_state` of the source. -/
def usbctrl_next_state (code : usb_device_trans_t → Nat) (current_state request : Nat) :
    Option Nat :=
  match (usb_automaton code)[current_state]? with
  | none => none
  | some row => usbctrl_next_state_loop row.req_trans request MAX_TRANSITION_STATE 0

/-- The `for` loop of `usbctrl_is_valid_transition`, entered at index `i` with `n` iterations
left: `true` at the first entry whose request is `transition`, `false` after the loop. -/
def usbctrl_is_valid_transition_loop (req_trans : List usb_request_code_transition_t)
    (transition : Nat) : Nat → Nat → Option Bool
  | 0, _ => some false
  | n + 1, i =>
    match req_trans[i]? with
    | none => none
    | some t =>
      if t.request = transition then some true
      else usbctrl_is_valid_transition_loop req_trans transition n (i + 1)

/-- The `usbctrl_is_valid_transition` of the source. -/
def usbctrl_is_valid_transition (code : usb_device_trans_t → Nat)
    (current_state transition : Nat) : Option Bool :=
  match (usb_automaton code)[current_state]? with
  | none => none
  | some row => usbctrl_is_valid_transition_loop row.req_trans transition MAX_TRANSITION_STATE 0

/-- A concrete coding of the events, used to evaluate the lookups. -/
def trans_code_example : usb_device_trans_t → Nat
  | USB_DEVICE_TRANS_RESET => 1
  | USB_DEVICE_TRANS_BUS_INACTIVE => 2
  | USB_DEVICE_TRANS_BUS_ACTIVE => 3
  | USB_DEVICE_TRANS_HUB_CONFIGURED => 4
  | USB_DEVICE_TRANS_HUB_DECONFIGURED => 5
  | USB_DEVICE_TRANS_HUB_RESET => 6
  | USB_DEVICE_TRANS_ADDRESS_ASSIGNED => 7
  | USB_DEVICE_TRANS_DEV_CONFIGURED => 8
  | USB_DEVICE_TRANS_DEV_DECONFIGURED => 9

/-! ## The device context (`api/libusbctrl.h`) and the state accessors -/

/-- The `usb_ep_infos_t` of the header. Enumerations are kept as their integer value and a
handler as the address it points to. -/
structure usb_ep_infos_t where
  type : Nat
  dir : Nat
  attr : Nat
  usage : Nat
  pkt_maxsize : Nat
  handler : Nat
  ep_num : Nat
  configured : Bool
  deriving DecidableEq

/-- The `usbctrl_interface_t` of the header. -/
structure usbctrl_interface_t where
  usb_class : Nat
  usb_subclass : Nat
  usb_protocol : Nat
  dedicated : Bool
  rqst_handler : Nat
  func_desc : Nat
  func_desc_len : Nat
  usb_ep_number : Nat
  eps : List usb_ep_infos_t
  deriving DecidableEq

/-- The `usbctrl_configuration_t` of the header. -/
structure usbctrl_configuration_t where
  first_free_epid : Nat
  interface_num : Nat
  interfaces : List usbctrl_interface_t
  deriving DecidableEq

/-- The `usbctrl_context_t` of the header, field by field. The arrays `cfg` and `ctrl_fifo`
have sizes fixed by configuration constants that are not among the sources; they are lists.
The field `ctrl_fifo_state` is declared `bool` in the header. -/
structure usbctrl_context_t where
  dev_id : Nat
  address : Nat
  num_cfg : Nat
  curr_cfg : Nat
  cfg : List usbctrl_configuration_t
  state : Nat
  ctrl_fifo : List Nat
  ctrl_fifo_state : Bool
  deriving DecidableEq

/-- The `usbctrl_get_state` of the source. -/
def usbctrl_get_state (ctx : Option usbctrl_context_t) : Nat :=
  match ctx with
  | none => USB_DEVICE_STATE_INVALID
  | some c => c.state

/-- The `usbctrl_set_state` of the source: the returned pair is the error code and the
context the pointer designates after the call (`none` for a null pointer). The stored field
is a `uint8_t`, hence the reduction modulo 256 of the value written. -/
def usbctrl_set_state (ctx : Option usbctrl_context_t) (newstate : Nat) :
    mbed_error_t × Option usbctrl_context_t :=
  match ctx with
  | none => (MBED_ERROR_INVPARAM, none)
  | some c =>
    if newstate ≥ USB_DEVICE_STATE_INVALID then (MBED_ERROR_INVPARAM, some c)
    else (MBED_ERROR_NONE, some { c with state := newstate % 256 })

/-- A context in the state it has after `usbctrl_initialize`, used to evaluate the setter. -/
def ctx_example : usbctrl_context_t :=
  { dev_id := 1, address := 0, num_cfg := 1, curr_cfg := 0, cfg := [], state := 0,
    ctrl_fifo := [], ctrl_fifo_state := false }

/-! ## Delivery of a sequence of events -/

/-- Modelled from the spec: the event handlers that consult the two lookups before calling
the setter are not among the sources. This is the move they are specified to make: the event
takes the state to `usbctrl_next_state state event` when `usbctrl_is_valid_transition state
event` holds, and leaves the state as it is otherwise. -/
def automaton_deliver (code : usb_device_trans_t → Nat) (state event : Nat) : Option Nat :=
  match usbctrl_is_valid_transition code state event with
  | none => none
  | some true => usbctrl_next_state code state event
  | some false => some state

/-- Modelled from the spec: the state after a finite sequence of events delivered one after
the other by `automaton_deliver`, starting in `state`. -/
def automaton_run (code : usb_device_trans_t → Nat) : Nat → List Nat → Option Nat
  | state, [] => some state
  | state, event :: events =>
    match automaton_deliver code state event with
    | none => none
    | some next => automaton_run code next events

/-- Modelled from the spec: the callers that chain transitions are not among the sources.
This is the state reached from `state` by following `usbctrl_next_state` along a sequence of
request codes: each code replaces the state by the value the lookup returns for it. -/
def automaton_follow (code : usb_device_trans_t → Nat) : Nat → List Nat → Option Nat
  | state, [] => some state
  | state, event :: events =>
    match usbctrl_next_state code state event with
    | none => none
    | some next => automaton_follow code next events

/-! ## General facts about the table and the two loops -/

theorem trans_code_example_injective : Function.Injective trans_code_example := by
  intro a b h
  cases a <;> cases b <;> first | rfl | (exact absurd h (by decide))

theorem trans_code_example_lt (t : usb_device_trans_t) : trans_code_example t < 0xff := by
  cases t <;> decide

/-- The table has one row per state, the invalid one included, and the row at position `s`
is the row labelled `s`. -/
theorem usb_automaton_row_at (code : usb_device_trans_t → Nat) (s : Nat)
    (hs : s ≤ USB_DEVICE_STATE_INVALID) :
    ∃ row, (usb_automaton code)[s]? = some row ∧ row.state = s ∧
      row.req_trans.length = MAX_TRANSITION_STATE ∧
      ∀ t ∈ row.req_trans, t.target_state = 0xff → t.request = 0xff := by
  simp only [USB_DEVICE_STATE_INVALID] at hs
  interval_cases s <;>
    simp [usb_automaton, MAX_TRANSITION_STATE, USB_DEVICE_STATE_ATTACHED,
      USB_DEVICE_STATE_POWERED, USB_DEVICE_STATE_SUSPENDED_POWER,
      USB_DEVICE_STATE_SUSPENDED_DEFAULT, USB_DEVICE_STATE_SUSPENDED_ADDRESS,
      USB_DEVICE_STATE_SUSPENDED_CONFIGURED, USB_DEVICE_STATE_DEFAULT,
      USB_DEVICE_STATE_ADDRESS, USB_DEVICE_STATE_CONFIGURED, USB_DEVICE_STATE_INVALID]

/-- Both loops, run over the same entries, stop at the same first entry whose request is the
one looked for, or both run to their end. -/
theorem loops_first_match (req_trans : List usb_request_code_transition_t) (e : Nat) :
    ∀ (n i : Nat), i + n ≤ req_trans.length →
      (∃ j t, i ≤ j ∧ j < i + n ∧ req_trans[j]? = some t ∧ t.request = e ∧
          usbctrl_next_state_loop req_trans e n i = some t.target_state ∧
          usbctrl_is_valid_transition_loop req_trans e n i = some true) ∨
      ((∀ j t, i ≤ j → j < i + n → req_trans[j]? = some t → t.request ≠ e) ∧
          usbctrl_next_state_loop req_trans e n i = some 0xff ∧
          usbctrl_is_valid_transition_loop req_trans e n i = some false) := by
  intro n
  induction n with
  | zero =>
    intro i _
    right
    refine ⟨?_, rfl, rfl⟩
    intro j t h1 h2
    omega
  | succ n ih =>
    intro i hi
    have hlt : i < req_trans.length := by omega
    have hget : req_trans[i]? = some req_trans[i] := List.getElem?_eq_getElem hlt
    by_cases hreq : (req_trans[i]).request = e
    · left
      refine ⟨i, req_trans[i], le_refl i, by omega, hget, hreq, ?_, ?_⟩
      · simp [usbctrl_next_state_loop, hget, hreq]
      · simp [usbctrl_is_valid_transition_loop, hget, hreq]
    · have hn : usbctrl_next_state_loop req_trans e (n + 1) i =
          usbctrl_next_state_loop req_trans e n (i + 1) := by
        simp [usbctrl_next_state_loop, hget, hreq]
      have hv : usbctrl_is_valid_transition_loop req_trans e (n + 1) i =
          usbctrl_is_valid_transition_loop req_trans e n (i + 1) := by
        simp [usbctrl_is_valid_transition_loop, hget, hreq]
      rcases ih (i + 1) (by omega) with ⟨j, t, h1, h2, h3, h4, h5, h6⟩ | ⟨h1, h2, h3⟩
      · left
        exact ⟨j, t, by omega, by omega, h3, h4, hn.trans h5, hv.trans h6⟩
      · right
        refine ⟨?_, hn.trans h2, hv.trans h3⟩
        intro j t hj1 hj2 hjt
        by_cases hji : j = i
        · subst hji
          rw [hget] at hjt
          cases hjt
          exact hreq
        · exact h1 j t (by omega) (by omega) hjt

/-! ## The lookups against the table -/

/-- C1: for every state `s` of the table (attached to configured, and the invalid row) and
every request code `e` other than the padding value `0xff`, `usbctrl_next_state` returns a
value, which is `0xff` if and only if none of the ten entries of row `s` has request `e`, and
which otherwise is the target state of an entry of row `s` whose request is `e`. -/
theorem C1_next_state_table_lookup (code : usb_device_trans_t → Nat) (s e : Nat)
    (hs : s ≤ USB_DEVICE_STATE_INVALID) (he : e ≠ 0xff) :
    ∃ row r, (usb_automaton code)[s]? = some row ∧ row.state = s ∧
      usbctrl_next_state code s e = some r ∧
      (r = 0xff ↔
        ∀ i t, i < MAX_TRANSITION_STATE → row.req_trans[i]? = some t → t.request ≠ e) ∧
      (r ≠ 0xff →
        ∃ i t, i < MAX_TRANSITION_STATE ∧ row.req_trans[i]? = some t ∧ t.request = e ∧
          r = t.target_state) := by
  obtain ⟨row, hrow, hst, hlen, hpad⟩ := usb_automaton_row_at code s hs
  have hns : usbctrl_next_state code s e =
      usbctrl_next_state_loop row.req_trans e MAX_TRANSITION_STATE 0 := by
    simp [usbctrl_next_state, hrow]
  rcases loops_first_match row.req_trans e MAX_TRANSITION_STATE 0 (by omega) with
    ⟨j, t, _, h2, h3, h4, h5, _⟩ | ⟨h1, h2, _⟩
  · have hj : j < MAX_TRANSITION_STATE := by omega
    have hmem : t ∈ row.req_trans := List.getElem?_mem h3
    have hne : t.target_state ≠ 0xff := fun h => he (h4 ▸ hpad t hmem h)
    refine ⟨row, t.target_state, hrow, hst, hns.trans h5, ?_, ?_⟩
    · constructor
      · intro h
        exact absurd h hne
      · intro h
        exact absurd h4 (h j t hj h3)
    · intro _
      exact ⟨j, t, hj, h3, h4, rfl⟩
  · refine ⟨row, 0xff, hrow, hst, hns.trans h2, ?_, ?_⟩
    · constructor
      · intro _ i t hi hit
        exact h1 i t (Nat.zero_le i) (by omega) hit
      · intro _
        rfl
    · intro h
      exact absurd rfl h

/-- Witness of C1: the reset request in the powered state, under a concrete coding. -/
theorem C1_next_state_table_lookup_witness :
    1 ≤ USB_DEVICE_STATE_INVALID ∧ 1 ≠ 0xff ∧ ∃ row r, (usb_automaton trans_code_example)[1]? = some row ∧ row.state = 1 ∧
      usbctrl_next_state trans_code_example 1 1 = some r ∧
      (r = 0xff ↔
        ∀ i t, i < MAX_TRANSITION_STATE → row.req_trans[i]? = some t → t.request ≠ 1) ∧
      (r ≠ 0xff →
        ∃ i t, i < MAX_TRANSITION_STATE ∧ row.req_trans[i]? = some t ∧ t.request = 1 ∧
          r = t.target_state) :=
  ⟨by decide, by decide,
    C1_next_state_table_lookup trans_code_example 1 1 (by decide) (by decide)⟩

/-- C2: for every valid state `s` and every request code `e` other than the padding value,
both lookups return, and `usbctrl_is_valid_transition` answers true if and only if
`usbctrl_next_state` answers a value different from `0xff`. -/
theorem C2_valid_iff_next_state_defined (code : usb_device_trans_t → Nat) (s e : Nat)
    (hs : s < USB_DEVICE_STATE_INVALID) (he : e ≠ 0xff) :
    ∃ b r, usbctrl_is_valid_transition code s e = some b ∧
      usbctrl_next_state code s e = some r ∧ (b = true ↔ r ≠ 0xff) := by
  obtain ⟨row, hrow, _, hlen, hpad⟩ := usb_automaton_row_at code s (Nat.le_of_lt hs)
  have hns : usbctrl_next_state code s e =
      usbctrl_next_state_loop row.req_trans e MAX_TRANSITION_STATE 0 := by
    simp [usbctrl_next_state, hrow]
  have hvt : usbctrl_is_valid_transition code s e =
      usbctrl_is_valid_transition_loop row.req_trans e MAX_TRANSITION_STATE 0 := by
    simp [usbctrl_is_valid_transition, hrow]
  rcases loops_first_match row.req_trans e MAX_TRANSITION_STATE 0 (by omega) with
    ⟨j, t, _, _, h3, h4, h5, h6⟩ | ⟨_, h2, h3⟩
  · have hmem : t ∈ row.req_trans := List.getElem?_mem h3
    have hne : t.target_state ≠ 0xff := fun h => he (h4 ▸ hpad t hmem h)
    exact ⟨true, t.target_state, hvt.trans h6, hns.trans h5, by simp [hne]⟩
  · exact ⟨false, 0xff, hvt.trans h3, hns.trans h2, by simp⟩

/-- Witness of C2: the address-assigned request in the configured state, which the table
does not define, under a concrete coding. -/
theorem C2_valid_iff_next_state_defined_witness :
    8 < USB_DEVICE_STATE_INVALID ∧ 7 ≠ 0xff ∧ ∃ b r, usbctrl_is_valid_transition trans_code_example 8 7 = some b ∧
      usbctrl_next_state trans_code_example 8 7 = some r ∧ (b = true ↔ r ≠ 0xff) :=
  ⟨by decide, by decide,
    C2_valid_iff_next_state_defined trans_code_example 8 7 (by decide) (by decide)⟩

/-- C3: for every valid state `s`, the reset event is a valid transition if and only if `s`
is not attached, and whenever it is valid the next state is default; in particular reset from
address, from suspended_power and from suspended_default yields default, and reset in
attached yields `0xff`. -/
theorem C3_reset_leads_to_default (code : usb_device_trans_t → Nat)
    (hinj : Function.Injective code) (hlt : ∀ t, code t < 0xff) (s : Nat)
    (hs : s < USB_DEVICE_STATE_INVALID) :
    (usbctrl_is_valid_transition code s (code USB_DEVICE_TRANS_RESET) = some true ↔
        s ≠ USB_DEVICE_STATE_ATTACHED) ∧
      (usbctrl_is_valid_transition code s (code USB_DEVICE_TRANS_RESET) = some false ↔
        s = USB_DEVICE_STATE_ATTACHED) ∧
      (usbctrl_is_valid_transition code s (code USB_DEVICE_TRANS_RESET) = some true →
        usbctrl_next_state code s (code USB_DEVICE_TRANS_RESET) =
          some USB_DEVICE_STATE_DEFAULT) ∧
      usbctrl_next_state code USB_DEVICE_STATE_ADDRESS (code USB_DEVICE_TRANS_RESET) =
        some USB_DEVICE_STATE_DEFAULT ∧
      usbctrl_next_state code USB_DEVICE_STATE_SUSPENDED_POWER (code USB_DEVICE_TRANS_RESET) =
        some USB_DEVICE_STATE_DEFAULT ∧
      usbctrl_next_state code USB_DEVICE_STATE_SUSPENDED_DEFAULT (code USB_DEVICE_TRANS_RESET) =
        some USB_DEVICE_STATE_DEFAULT ∧
      usbctrl_next_state code USB_DEVICE_STATE_ATTACHED (code USB_DEVICE_TRANS_RESET) =
        some 0xff := by
  have hpad : ∀ t, ¬ (255 = code t) := fun t h => absurd (hlt t) (by omega)
  simp only [USB_DEVICE_STATE_INVALID] at hs
  interval_cases s <;>
    simp [usbctrl_next_state, usbctrl_is_valid_transition, usb_automaton,
      usbctrl_next_state_loop, usbctrl_is_valid_transition_loop, MAX_TRANSITION_STATE,
      hinj.eq_iff, hpad, USB_DEVICE_STATE_ATTACHED, USB_DEVICE_STATE_ADDRESS,
      USB_DEVICE_STATE_SUSPENDED_POWER, USB_DEVICE_STATE_SUSPENDED_DEFAULT]

/-- Witness of C3: reset in the address state, under a concrete coding, is valid and leads
to default. -/
theorem C3_reset_leads_to_default_witness :
    7 < USB_DEVICE_STATE_INVALID ∧
      usbctrl_is_valid_transition trans_code_example 7
        (trans_code_example USB_DEVICE_TRANS_RESET) = some true ∧
      usbctrl_next_state trans_code_example 7
        (trans_code_example USB_DEVICE_TRANS_RESET) = some USB_DEVICE_STATE_DEFAULT :=
  have h := C3_reset_leads_to_default trans_code_example trans_code_example_injective
    trans_code_example_lt 7 (by decide)
  ⟨by decide, h.1.mpr (by decide), h.2.2.1 (h.1.mpr (by decide))⟩

/-! ## The setter -/

/-- C4: `usbctrl_set_state` returns `MBED_ERROR_INVPARAM` if and only if the context is null
or the new state is the invalid sentinel or a larger value, and in that case a non-null
context is left as it was, its stored state included. -/
theorem C4_set_state_invparam (ctx : Option usbctrl_context_t) (newstate : Nat) :
    ((usbctrl_set_state ctx newstate).1 = MBED_ERROR_INVPARAM ↔
        (ctx = none ∨ newstate ≥ USB_DEVICE_STATE_INVALID)) ∧
      ((usbctrl_set_state ctx newstate).1 = MBED_ERROR_INVPARAM →
        (usbctrl_set_state ctx newstate).2 = ctx ∧
        usbctrl_get_state (usbctrl_set_state ctx newstate).2 = usbctrl_get_state ctx ∧
        ∀ c, ctx = some c →
          ∃ c1, (usbctrl_set_state ctx newstate).2 = some c1 ∧ c1.state = c.state) := by
  cases ctx with
  | none => simp [usbctrl_set_state]
  | some c =>
    by_cases h : newstate ≥ USB_DEVICE_STATE_INVALID
    · simp [usbctrl_set_state, h]
    · simp [usbctrl_set_state, h]

/-- C5: the setter does not validate reachability. For every non-null context, whatever its
current state, and every valid state `n`, `usbctrl_set_state` returns `MBED_ERROR_NONE` and
leaves `n` in the state field; this includes the move from configured to attached, which no
request code makes `usbctrl_next_state` produce. -/
theorem C5_set_state_accepts_unreachable (code : usb_device_trans_t → Nat)
    (c : usbctrl_context_t) (n : Nat) (hn : n < USB_DEVICE_STATE_INVALID) :
    (∃ c1, usbctrl_set_state (some c) n = (MBED_ERROR_NONE, some c1) ∧ c1.state = n) ∧
      (∀ e, usbctrl_next_state code USB_DEVICE_STATE_CONFIGURED e ≠
        some USB_DEVICE_STATE_ATTACHED) ∧
      (∃ c2, usbctrl_set_state (some { c with state := USB_DEVICE_STATE_CONFIGURED })
          USB_DEVICE_STATE_ATTACHED = (MBED_ERROR_NONE, some c2) ∧
        c2.state = USB_DEVICE_STATE_ATTACHED) := by
  refine ⟨?_, ?_, ?_⟩
  · have h1 : ¬ (n ≥ USB_DEVICE_STATE_INVALID) := by omega
    have h2 : n % 256 = n := by
      simp only [USB_DEVICE_STATE_INVALID] at hn
      omega
    exact ⟨{ c with state := n % 256 }, by simp [usbctrl_set_state, h1], h2⟩
  · intro e
    simp only [usbctrl_next_state, usb_automaton, USB_DEVICE_STATE_CONFIGURED,
      usbctrl_next_state_loop, MAX_TRANSITION_STATE, USB_DEVICE_STATE_ATTACHED,
      USB_DEVICE_STATE_ADDRESS, USB_DEVICE_STATE_SUSPENDED_CONFIGURED,
      USB_DEVICE_STATE_DEFAULT]
    simp
    split_ifs <;> simp
  · exact ⟨{ c with state := 0 }, by
      simp [usbctrl_set_state, USB_DEVICE_STATE_ATTACHED, USB_DEVICE_STATE_INVALID], rfl⟩

/-- Witness of C5: a context in the configured state is set to attached. -/
theorem C5_set_state_accepts_unreachable_witness :
    0 < USB_DEVICE_STATE_INVALID ∧
      ∃ c1, usbctrl_set_state (some { ctx_example with state := 8 }) 0 =
        (MBED_ERROR_NONE, some c1) ∧ c1.state = 0 :=
  ⟨by decide, (C5_set_state_accepts_unreachable trans_code_example
    { ctx_example with state := 8 } 0 (by decide)).1⟩

/-! ## The transitions, event by event -/

/-- C6: for every valid state `s`, the next state on `bus_inactive` is suspended_power,
suspended_default, suspended_address, suspended_configured when `s` is powered, default,
address, configured respectively, and `0xff` for every other valid state (attached and the
four suspended states). -/
theorem C6_bus_inactive_suspends (code : usb_device_trans_t → Nat)
    (hinj : Function.Injective code) (s : Nat) (hs : s < USB_DEVICE_STATE_INVALID) :
    usbctrl_next_state code s (code USB_DEVICE_TRANS_BUS_INACTIVE) =
      some (if s = USB_DEVICE_STATE_POWERED then USB_DEVICE_STATE_SUSPENDED_POWER
        else if s = USB_DEVICE_STATE_DEFAULT then USB_DEVICE_STATE_SUSPENDED_DEFAULT
        else if s = USB_DEVICE_STATE_ADDRESS then USB_DEVICE_STATE_SUSPENDED_ADDRESS
        else if s = USB_DEVICE_STATE_CONFIGURED then USB_DEVICE_STATE_SUSPENDED_CONFIGURED
        else 0xff) := by
  simp only [USB_DEVICE_STATE_INVALID] at hs
  interval_cases s <;>
    simp [usbctrl_next_state, usb_automaton, usbctrl_next_state_loop, MAX_TRANSITION_STATE,
      hinj.eq_iff, USB_DEVICE_STATE_POWERED, USB_DEVICE_STATE_DEFAULT, USB_DEVICE_STATE_ADDRESS,
      USB_DEVICE_STATE_CONFIGURED]

/-- Witness of C6: `bus_inactive` in the address state, under a concrete coding. -/
theorem C6_bus_inactive_suspends_witness :
    7 < USB_DEVICE_STATE_INVALID ∧
      usbctrl_next_state trans_code_example 7
        (trans_code_example USB_DEVICE_TRANS_BUS_INACTIVE) =
      some (if 7 = USB_DEVICE_STATE_POWERED then USB_DEVICE_STATE_SUSPENDED_POWER
        else if 7 = USB_DEVICE_STATE_DEFAULT then USB_DEVICE_STATE_SUSPENDED_DEFAULT
        else if 7 = USB_DEVICE_STATE_ADDRESS then USB_DEVICE_STATE_SUSPENDED_ADDRESS
        else if 7 = USB_DEVICE_STATE_CONFIGURED then USB_DEVICE_STATE_SUSPENDED_CONFIGURED
        else 0xff) :=
  ⟨by decide, C6_bus_inactive_suspends trans_code_example trans_code_example_injective 7
    (by decide)⟩

/-- C7: for every valid state `s`, the next state on `bus_active` is powered, default,
address, configured when `s` is suspended_power, suspended_default, suspended_address,
suspended_configured respectively, and `0xff` for every valid state that is not suspended. -/
theorem C7_bus_active_resumes (code : usb_device_trans_t → Nat)
    (hinj : Function.Injective code) (s : Nat) (hs : s < USB_DEVICE_STATE_INVALID) :
    usbctrl_next_state code s (code USB_DEVICE_TRANS_BUS_ACTIVE) =
      some (if s = USB_DEVICE_STATE_SUSPENDED_POWER then USB_DEVICE_STATE_POWERED
        else if s = USB_DEVICE_STATE_SUSPENDED_DEFAULT then USB_DEVICE_STATE_DEFAULT
        else if s = USB_DEVICE_STATE_SUSPENDED_ADDRESS then USB_DEVICE_STATE_ADDRESS
        else if s = USB_DEVICE_STATE_SUSPENDED_CONFIGURED then USB_DEVICE_STATE_CONFIGURED
        else 0xff) := by
  simp only [USB_DEVICE_STATE_INVALID] at hs
  interval_cases s <;>
    simp [usbctrl_next_state, usb_automaton, usbctrl_next_state_loop, MAX_TRANSITION_STATE,
      hinj.eq_iff, USB_DEVICE_STATE_SUSPENDED_POWER, USB_DEVICE_STATE_SUSPENDED_DEFAULT,
      USB_DEVICE_STATE_SUSPENDED_ADDRESS, USB_DEVICE_STATE_SUSPENDED_CONFIGURED]

/-- Witness of C7: `bus_active` in the suspended_default state, under a concrete coding. -/
theorem C7_bus_active_resumes_witness :
    3 < USB_DEVICE_STATE_INVALID ∧
      usbctrl_next_state trans_code_example 3
        (trans_code_example USB_DEVICE_TRANS_BUS_ACTIVE) =
      some (if 3 = USB_DEVICE_STATE_SUSPENDED_POWER then USB_DEVICE_STATE_POWERED
        else if 3 = USB_DEVICE_STATE_SUSPENDED_DEFAULT then USB_DEVICE_STATE_DEFAULT
        else if 3 = USB_DEVICE_STATE_SUSPENDED_ADDRESS then USB_DEVICE_STATE_ADDRESS
        else if 3 = USB_DEVICE_STATE_SUSPENDED_CONFIGURED then USB_DEVICE_STATE_CONFIGURED
        else 0xff) :=
  ⟨by decide, C7_bus_active_resumes trans_code_example trans_code_example_injective 3
    (by decide)⟩

/-- C8: suspend then resume is the identity on the four operational states. For every `X`
among powered, default, address and configured, the next state on `bus_inactive` is one of
the four suspended states (so it is not `0xff`), and from it `bus_active` leads back to `X`;
from configured the intermediate state is suspended_configured. -/
theorem C8_suspend_resume_identity (code : usb_device_trans_t → Nat)
    (hinj : Function.Injective code) (X : Nat)
    (hX : X = USB_DEVICE_STATE_POWERED ∨ X = USB_DEVICE_STATE_DEFAULT ∨
      X = USB_DEVICE_STATE_ADDRESS ∨ X = USB_DEVICE_STATE_CONFIGURED) :
    (∃ S, usbctrl_next_state code X (code USB_DEVICE_TRANS_BUS_INACTIVE) = some S ∧
        S ≠ 0xff ∧
        (S = USB_DEVICE_STATE_SUSPENDED_POWER ∨ S = USB_DEVICE_STATE_SUSPENDED_DEFAULT ∨
          S = USB_DEVICE_STATE_SUSPENDED_ADDRESS ∨
          S = USB_DEVICE_STATE_SUSPENDED_CONFIGURED) ∧
        usbctrl_next_state code S (code USB_DEVICE_TRANS_BUS_ACTIVE) = some X) ∧
      usbctrl_next_state code USB_DEVICE_STATE_CONFIGURED
        (code USB_DEVICE_TRANS_BUS_INACTIVE) = some USB_DEVICE_STATE_SUSPENDED_CONFIGURED ∧
      usbctrl_next_state code USB_DEVICE_STATE_SUSPENDED_CONFIGURED
        (code USB_DEVICE_TRANS_BUS_ACTIVE) = some USB_DEVICE_STATE_CONFIGURED := by
  rcases hX with rfl | rfl | rfl | rfl <;>
    simp [usbctrl_next_state, usb_automaton, usbctrl_next_state_loop, MAX_TRANSITION_STATE,
      hinj.eq_iff, USB_DEVICE_STATE_POWERED, USB_DEVICE_STATE_DEFAULT, USB_DEVICE_STATE_ADDRESS,
      USB_DEVICE_STATE_CONFIGURED, USB_DEVICE_STATE_SUSPENDED_POWER,
      USB_DEVICE_STATE_SUSPENDED_DEFAULT, USB_DEVICE_STATE_SUSPENDED_ADDRESS,
      USB_DEVICE_STATE_SUSPENDED_CONFIGURED]

/-- Witness of C8: suspend and resume from the configured state, under a concrete coding. -/
theorem C8_suspend_resume_identity_witness :
    ∃ S, usbctrl_next_state trans_code_example USB_DEVICE_STATE_CONFIGURED
        (trans_code_example USB_DEVICE_TRANS_BUS_INACTIVE) = some S ∧
      S ≠ 0xff ∧
      (S = USB_DEVICE_STATE_SUSPENDED_POWER ∨ S = USB_DEVICE_STATE_SUSPENDED_DEFAULT ∨
        S = USB_DEVICE_STATE_SUSPENDED_ADDRESS ∨
        S = USB_DEVICE_STATE_SUSPENDED_CONFIGURED) ∧
      usbctrl_next_state trans_code_example S
        (trans_code_example USB_DEVICE_TRANS_BUS_ACTIVE) = some USB_DEVICE_STATE_CONFIGURED :=
  (C8_suspend_resume_identity trans_code_example trans_code_example_injective
    USB_DEVICE_STATE_CONFIGURED (Or.inr (Or.inr (Or.inr rfl)))).1

/-- C9: the hub events are defined exactly as tabulated. For every valid state `s`,
`hub_configured` is a valid transition only when `s` is attached, where it leads to powered;
`hub_reset` and `hub_deconfigured` are valid transitions only when `s` is powered, where they
lead to attached; in every other valid state the next state for these events is `0xff`; and
whatever the request code `e`, the next state is attached only when `s` is powered and `e` is
`hub_reset` or `hub_deconfigured`. -/
theorem C9_hub_events (code : usb_device_trans_t → Nat)
    (hinj : Function.Injective code) (hlt : ∀ t, code t < 0xff) (s : Nat)
    (hs : s < USB_DEVICE_STATE_INVALID) :
    usbctrl_is_valid_transition code s (code USB_DEVICE_TRANS_HUB_CONFIGURED) =
        some (decide (s = USB_DEVICE_STATE_ATTACHED)) ∧
      usbctrl_next_state code s (code USB_DEVICE_TRANS_HUB_CONFIGURED) =
        some (if s = USB_DEVICE_STATE_ATTACHED then USB_DEVICE_STATE_POWERED else 0xff) ∧
      usbctrl_is_valid_transition code s (code USB_DEVICE_TRANS_HUB_RESET) =
        some (decide (s = USB_DEVICE_STATE_POWERED)) ∧
      usbctrl_next_state code s (code USB_DEVICE_TRANS_HUB_RESET) =
        some (if s = USB_DEVICE_STATE_POWERED then USB_DEVICE_STATE_ATTACHED else 0xff) ∧
      usbctrl_is_valid_transition code s (code USB_DEVICE_TRANS_HUB_DECONFIGURED) =
        some (decide (s = USB_DEVICE_STATE_POWERED)) ∧
      usbctrl_next_state code s (code USB_DEVICE_TRANS_HUB_DECONFIGURED) =
        some (if s = USB_DEVICE_STATE_POWERED then USB_DEVICE_STATE_ATTACHED else 0xff) ∧
      ∀ e, usbctrl_next_state code s e = some USB_DEVICE_STATE_ATTACHED →
        s = USB_DEVICE_STATE_POWERED ∧
          (e = code USB_DEVICE_TRANS_HUB_RESET ∨ e = code USB_DEVICE_TRANS_HUB_DECONFIGURED) := by
  have hpad : ∀ t, ¬ (255 = code t) := fun t h => absurd (hlt t) (by omega)
  simp only [USB_DEVICE_STATE_INVALID] at hs
  refine ⟨?_, ?_, ?_, ?_, ?_, ?_, ?_⟩
  iterate 6
    interval_cases s <;>
      simp [usbctrl_next_state, usbctrl_is_valid_transition, usb_automaton,
        usbctrl_next_state_loop, usbctrl_is_valid_transition_loop, MAX_TRANSITION_STATE,
        hinj.eq_iff, hpad, USB_DEVICE_STATE_ATTACHED, USB_DEVICE_STATE_POWERED]
  intro e
  interval_cases s <;>
    simp only [usbctrl_next_state, usb_automaton, usbctrl_next_state_loop,
      MAX_TRANSITION_STATE, USB_DEVICE_STATE_ATTACHED, USB_DEVICE_STATE_POWERED,
      USB_DEVICE_STATE_SUSPENDED_POWER, USB_DEVICE_STATE_SUSPENDED_DEFAULT,
      USB_DEVICE_STATE_SUSPENDED_ADDRESS, USB_DEVICE_STATE_SUSPENDED_CONFIGURED,
      USB_DEVICE_STATE_DEFAULT, USB_DEVICE_STATE_ADDRESS, USB_DEVICE_STATE_CONFIGURED] <;>
    simp <;> split_ifs <;> simp_all

/-- Witness of C9: the hub events in the powered state, under a concrete coding. -/
theorem C9_hub_events_witness :
    1 < USB_DEVICE_STATE_INVALID ∧
      usbctrl_is_valid_transition trans_code_example 1
        (trans_code_example USB_DEVICE_TRANS_HUB_CONFIGURED) =
        some (decide (1 = USB_DEVICE_STATE_ATTACHED)) ∧
      usbctrl_next_state trans_code_example 1
        (trans_code_example USB_DEVICE_TRANS_HUB_RESET) =
        some (if 1 = USB_DEVICE_STATE_POWERED then USB_DEVICE_STATE_ATTACHED else 0xff) :=
  have h := C9_hub_events trans_code_example trans_code_example_injective
    trans_code_example_lt 1 (by decide)
  ⟨by decide, h.1, h.2.2.2.1⟩

/-- C10: the enumeration events are defined exactly as tabulated. For every valid state `s`,
`address_assigned` is a valid transition only when `s` is default (target address),
`device_configured` only when `s` is address (target configured), and `device_deconfigured`
only when `s` is configured (target address); in every other valid state the next state for
these events is `0xff`. -/
theorem C10_enumeration_events (code : usb_device_trans_t → Nat)
    (hinj : Function.Injective code) (hlt : ∀ t, code t < 0xff) (s : Nat)
    (hs : s < USB_DEVICE_STATE_INVALID) :
    usbctrl_is_valid_transition code s (code USB_DEVICE_TRANS_ADDRESS_ASSIGNED) =
        some (decide (s = USB_DEVICE_STATE_DEFAULT)) ∧
      usbctrl_next_state code s (code USB_DEVICE_TRANS_ADDRESS_ASSIGNED) =
        some (if s = USB_DEVICE_STATE_DEFAULT then USB_DEVICE_STATE_ADDRESS else 0xff) ∧
      usbctrl_is_valid_transition code s (code USB_DEVICE_TRANS_DEV_CONFIGURED) =
        some (decide (s = USB_DEVICE_STATE_ADDRESS)) ∧
      usbctrl_next_state code s (code USB_DEVICE_TRANS_DEV_CONFIGURED) =
        some (if s = USB_DEVICE_STATE_ADDRESS then USB_DEVICE_STATE_CONFIGURED else 0xff) ∧
      usbctrl_is_valid_transition code s (code USB_DEVICE_TRANS_DEV_DECONFIGURED) =
        some (decide (s = USB_DEVICE_STATE_CONFIGURED)) ∧
      usbctrl_next_state code s (code USB_DEVICE_TRANS_DEV_DECONFIGURED) =
        some (if s = USB_DEVICE_STATE_CONFIGURED then USB_DEVICE_STATE_ADDRESS else 0xff) := by
  have hpad : ∀ t, ¬ (255 = code t) := fun t h => absurd (hlt t) (by omega)
  simp only [USB_DEVICE_STATE_INVALID] at hs
  interval_cases s <;>
    simp [usbctrl_next_state, usbctrl_is_valid_transition, usb_automaton,
      usbctrl_next_state_loop, usbctrl_is_valid_transition_loop, MAX_TRANSITION_STATE,
      hinj.eq_iff, hpad, USB_DEVICE_STATE_DEFAULT, USB_DEVICE_STATE_ADDRESS,
      USB_DEVICE_STATE_CONFIGURED]

/-- Witness of C10: the enumeration events in the address state, under a concrete coding. -/
theorem C10_enumeration_events_witness :
    7 < USB_DEVICE_STATE_INVALID ∧
      usbctrl_is_valid_transition trans_code_example 7
        (trans_code_example USB_DEVICE_TRANS_DEV_CONFIGURED) =
        some (decide (7 = USB_DEVICE_STATE_ADDRESS)) ∧
      usbctrl_next_state trans_code_example 7
        (trans_code_example USB_DEVICE_TRANS_DEV_CONFIGURED) =
        some (if 7 = USB_DEVICE_STATE_ADDRESS then USB_DEVICE_STATE_CONFIGURED else 0xff) :=
  have h := C10_enumeration_events trans_code_example trans_code_example_injective
    trans_code_example_lt 7 (by decide)
  ⟨by decide, h.2.2.1, h.2.2.2.1⟩

/-! ## The accessors -/

/-- C11: `usbctrl_get_state` returns `USB_DEVICE_STATE_INVALID` for a null context and the
stored state for every non-null context; it only reads its argument, so the context is the
same before and after; consequently, after a successful `usbctrl_set_state ctx n`, reading
the state of the resulting context gives `n`. -/
theorem C11_get_state_reads_state (ctx : Option usbctrl_context_t) (n : Nat) :
    usbctrl_get_state none = USB_DEVICE_STATE_INVALID ∧
      (∀ c, usbctrl_get_state (some c) = c.state) ∧
      ((usbctrl_set_state ctx n).1 = MBED_ERROR_NONE →
        usbctrl_get_state (usbctrl_set_state ctx n).2 = n) := by
  refine ⟨rfl, fun _ => rfl, ?_⟩
  cases ctx with
  | none => simp [usbctrl_set_state]
  | some c =>
    by_cases h : n ≥ USB_DEVICE_STATE_INVALID
    · simp [usbctrl_set_state, h]
    · have h2 : n % 256 = n := by
        simp only [USB_DEVICE_STATE_INVALID] at h
        omega
      simp [usbctrl_set_state, h, usbctrl_get_state, h2]

/-- C12: `usbctrl_set_state` writes nothing but the state field. For every context and every
new state, accepted or rejected, the context after the call has the same `dev_id`, `address`,
`num_cfg`, `curr_cfg`, configuration table, EP0 FIFO buffer and `ctrl_fifo_state` as before;
a null context stays null. -/
theorem C12_set_state_frame (c : usbctrl_context_t) (newstate : Nat) :
    (usbctrl_set_state none newstate).2 = none ∧
      ∃ c1, (usbctrl_set_state (some c) newstate).2 = some c1 ∧
        c1.dev_id = c.dev_id ∧ c1.address = c.address ∧ c1.num_cfg = c.num_cfg ∧
        c1.curr_cfg = c.curr_cfg ∧ c1.cfg = c.cfg ∧ c1.ctrl_fifo = c.ctrl_fifo ∧
        c1.ctrl_fifo_state = c.ctrl_fifo_state := by
  refine ⟨rfl, ?_⟩
  by_cases h : newstate ≥ USB_DEVICE_STATE_INVALID
  · exact ⟨c, by simp [usbctrl_set_state, h], rfl, rfl, rfl, rfl, rfl, rfl, rfl⟩
  · exact ⟨{ c with state := newstate % 256 }, by simp [usbctrl_set_state, h],
      rfl, rfl, rfl, rfl, rfl, rfl, rfl⟩

/-- C13: the stored state stays valid. If the state of the context is in the valid set
(`USB_DEVICE_STATE_ATTACHED ≤ state < USB_DEVICE_STATE_INVALID`) before a call of
`usbctrl_set_state`, then for every argument `x`, the invalid sentinel and larger values
included, the state of the context after the call is in the valid set; in particular it is
not the invalid sentinel. -/
theorem C13_state_always_valid (c : usbctrl_context_t) (x : Nat)
    (hc : USB_DEVICE_STATE_ATTACHED ≤ c.state ∧ c.state < USB_DEVICE_STATE_INVALID) :
    ∃ c1, (usbctrl_set_state (some c) x).2 = some c1 ∧
      USB_DEVICE_STATE_ATTACHED ≤ c1.state ∧ c1.state < USB_DEVICE_STATE_INVALID ∧
      c1.state ≠ USB_DEVICE_STATE_INVALID := by
  by_cases h : x ≥ USB_DEVICE_STATE_INVALID
  · exact ⟨c, by simp [usbctrl_set_state, h], hc.1, hc.2, Nat.ne_of_lt hc.2⟩
  · have h2 : x % 256 = x := by
      simp only [USB_DEVICE_STATE_INVALID] at h
      omega
    have h3 : x < USB_DEVICE_STATE_INVALID := by omega
    refine ⟨{ c with state := x % 256 }, by simp [usbctrl_set_state, h], ?_, ?_, ?_⟩
    · exact Nat.zero_le _
    · show x % 256 < USB_DEVICE_STATE_INVALID
      rw [h2]
      exact h3
    · show x % 256 ≠ USB_DEVICE_STATE_INVALID
      rw [h2]
      exact Nat.ne_of_lt h3

/-- Witness of C13: the invalid sentinel offered to a context in the configured state. -/
theorem C13_state_always_valid_witness :
    (USB_DEVICE_STATE_ATTACHED ≤ 8 ∧ 8 < USB_DEVICE_STATE_INVALID) ∧
      ∃ c1, (usbctrl_set_state (some { ctx_example with state := 8 })
          USB_DEVICE_STATE_INVALID).2 = some c1 ∧
        USB_DEVICE_STATE_ATTACHED ≤ c1.state ∧ c1.state < USB_DEVICE_STATE_INVALID ∧
        c1.state ≠ USB_DEVICE_STATE_INVALID :=
  ⟨by decide, C13_state_always_valid { ctx_example with state := 8 }
    USB_DEVICE_STATE_INVALID (by decide)⟩

/-! ## Sequences of events -/

/-- Every entry of every row is either padding (`0xff`, `0xff`) or leads to a valid state. -/
theorem usb_automaton_targets (code : usb_device_trans_t → Nat) (s : Nat)
    (hs : s ≤ USB_DEVICE_STATE_INVALID) :
    ∃ row, (usb_automaton code)[s]? = some row ∧
      row.req_trans.length = MAX_TRANSITION_STATE ∧
      ∀ t ∈ row.req_trans, t.target_state < USB_DEVICE_STATE_INVALID ∨
        (t.request = 0xff ∧ t.target_state = 0xff) := by
  simp only [USB_DEVICE_STATE_INVALID] at hs
  interval_cases s <;>
    simp [usb_automaton, MAX_TRANSITION_STATE, USB_DEVICE_STATE_ATTACHED,
      USB_DEVICE_STATE_POWERED, USB_DEVICE_STATE_SUSPENDED_POWER,
      USB_DEVICE_STATE_SUSPENDED_DEFAULT, USB_DEVICE_STATE_SUSPENDED_ADDRESS,
      USB_DEVICE_STATE_SUSPENDED_CONFIGURED, USB_DEVICE_STATE_DEFAULT,
      USB_DEVICE_STATE_ADDRESS, USB_DEVICE_STATE_CONFIGURED, USB_DEVICE_STATE_INVALID]

/-- One delivered event keeps a valid state valid. -/
theorem automaton_deliver_valid (code : usb_device_trans_t → Nat) (s e : Nat)
    (hs : s < USB_DEVICE_STATE_INVALID) (he : e ≠ 0xff) :
    ∃ r, automaton_deliver code s e = some r ∧ r < USB_DEVICE_STATE_INVALID := by
  obtain ⟨row, hrow, hlen, htgt⟩ := usb_automaton_targets code s (Nat.le_of_lt hs)
  have hns : usbctrl_next_state code s e =
      usbctrl_next_state_loop row.req_trans e MAX_TRANSITION_STATE 0 := by
    simp [usbctrl_next_state, hrow]
  have hvt : usbctrl_is_valid_transition code s e =
      usbctrl_is_valid_transition_loop row.req_trans e MAX_TRANSITION_STATE 0 := by
    simp [usbctrl_is_valid_transition, hrow]
  rcases loops_first_match row.req_trans e MAX_TRANSITION_STATE 0 (by omega) with
    ⟨j, t, _, _, h3, h4, h5, h6⟩ | ⟨_, _, h3⟩
  · refine ⟨t.target_state, ?_, ?_⟩
    · simp [automaton_deliver, hvt, h6, hns, h5]
    · rcases htgt t (List.getElem?_mem h3) with h | ⟨h, _⟩
      · exact h
      · exact absurd (h4 ▸ h) he
  · exact ⟨s, by simp [automaton_deliver, hvt, h3], hs⟩

/-- A sequence of events, none of which is the padding code, keeps a valid state valid. -/
theorem automaton_run_valid (code : usb_device_trans_t → Nat) (events : List Nat) :
    ∀ s, s < USB_DEVICE_STATE_INVALID → (∀ e ∈ events, e ≠ 0xff) →
      ∃ r, automaton_run code s events = some r ∧ r < USB_DEVICE_STATE_INVALID := by
  induction events with
  | nil =>
    intro s hs _
    exact ⟨s, rfl, hs⟩
  | cons e events ih =>
    intro s hs hev
    obtain ⟨r, hr, hrv⟩ := automaton_deliver_valid code s e hs (hev e (List.mem_cons_self e events))
    obtain ⟨r2, hr2, hr2v⟩ := ih r hrv (fun x hx => hev x (List.mem_cons_of_mem e hx))
    exact ⟨r2, by simp [automaton_run, hr, hr2], hr2v⟩

/-- C14: starting from attached, after any finite sequence of request codes other than the
padding code, each one moving the state to `usbctrl_next_state` when
`usbctrl_is_valid_transition` holds and leaving it unchanged otherwise, the run is defined
and the state is in the valid set: it is neither the invalid sentinel nor `0xff`, and
`usbctrl_set_state` accepts it and stores it. -/
theorem C14_run_stays_valid (code : usb_device_trans_t → Nat) (events : List Nat)
    (hev : ∀ e ∈ events, e ≠ 0xff) :
    ∃ s, automaton_run code USB_DEVICE_STATE_ATTACHED events = some s ∧
      USB_DEVICE_STATE_ATTACHED ≤ s ∧ s < USB_DEVICE_STATE_INVALID ∧
      s ≠ USB_DEVICE_STATE_INVALID ∧ s ≠ 0xff ∧
      ∀ c, usbctrl_set_state (some c) s = (MBED_ERROR_NONE, some { c with state := s }) := by
  obtain ⟨s, hs, hv⟩ := automaton_run_valid code events USB_DEVICE_STATE_ATTACHED
    (by decide) hev
  have h9 : s < 9 := hv
  refine ⟨s, hs, Nat.zero_le s, hv, Nat.ne_of_lt hv, by omega, ?_⟩
  intro c
  have h1 : ¬ (s ≥ USB_DEVICE_STATE_INVALID) := by omega
  have h2 : s % 256 = s := by omega
  simp [usbctrl_set_state, h1, h2]

/-- Witness of C14: the enumeration events followed by a suspend, an event that the
suspended state ignores, and a resume, under a concrete coding. -/
theorem C14_run_stays_valid_witness :
    ∃ s, automaton_run trans_code_example USB_DEVICE_STATE_ATTACHED [4, 1, 7, 8, 2, 7, 3] =
        some s ∧
      USB_DEVICE_STATE_ATTACHED ≤ s ∧ s < USB_DEVICE_STATE_INVALID ∧
      s ≠ USB_DEVICE_STATE_INVALID ∧ s ≠ 0xff ∧
      ∀ c, usbctrl_set_state (some c) s = (MBED_ERROR_NONE, some { c with state := s }) :=
  C14_run_stays_valid trans_code_example [4, 1, 7, 8, 2, 7, 3] (by decide)

/-- C15: the enumeration happy path is a path of the automaton. From attached, the events
`hub_configured`, `reset`, `address_assigned`, `device_configured` are each a valid
transition and lead to powered, default, address and configured in turn, so the terminal
state is configured; `device_deconfigured` is then a valid transition and leads to address. -/
theorem C15_enumeration_happy_path (code : usb_device_trans_t → Nat)
    (hinj : Function.Injective code) :
    (usbctrl_is_valid_transition code USB_DEVICE_STATE_ATTACHED
          (code USB_DEVICE_TRANS_HUB_CONFIGURED) = some true ∧
        usbctrl_next_state code USB_DEVICE_STATE_ATTACHED
          (code USB_DEVICE_TRANS_HUB_CONFIGURED) = some USB_DEVICE_STATE_POWERED) ∧
      (usbctrl_is_valid_transition code USB_DEVICE_STATE_POWERED
          (code USB_DEVICE_TRANS_RESET) = some true ∧
        usbctrl_next_state code USB_DEVICE_STATE_POWERED
          (code USB_DEVICE_TRANS_RESET) = some USB_DEVICE_STATE_DEFAULT) ∧
      (usbctrl_is_valid_transition code USB_DEVICE_STATE_DEFAULT
          (code USB_DEVICE_TRANS_ADDRESS_ASSIGNED) = some true ∧
        usbctrl_next_state code USB_DEVICE_STATE_DEFAULT
          (code USB_DEVICE_TRANS_ADDRESS_ASSIGNED) = some USB_DEVICE_STATE_ADDRESS) ∧
      (usbctrl_is_valid_transition code USB_DEVICE_STATE_ADDRESS
          (code USB_DEVICE_TRANS_DEV_CONFIGURED) = some true ∧
        usbctrl_next_state code USB_DEVICE_STATE_ADDRESS
          (code USB_DEVICE_TRANS_DEV_CONFIGURED) = some USB_DEVICE_STATE_CONFIGURED) ∧
      (usbctrl_is_valid_transition code USB_DEVICE_STATE_CONFIGURED
          (code USB_DEVICE_TRANS_DEV_DECONFIGURED) = some true ∧
        usbctrl_next_state code USB_DEVICE_STATE_CONFIGURED
          (code USB_DEVICE_TRANS_DEV_DECONFIGURED) = some USB_DEVICE_STATE_ADDRESS) := by
  simp [usbctrl_next_state, usbctrl_is_valid_transition, usb_automaton,
    usbctrl_next_state_loop, usbctrl_is_valid_transition_loop, MAX_TRANSITION_STATE,
    hinj.eq_iff, USB_DEVICE_STATE_ATTACHED, USB_DEVICE_STATE_POWERED,
    USB_DEVICE_STATE_DEFAULT, USB_DEVICE_STATE_ADDRESS, USB_DEVICE_STATE_CONFIGURED]

/-- Witness of C15: the happy path ends in configured under a concrete coding. -/
theorem C15_enumeration_happy_path_witness :
    usbctrl_is_valid_transition trans_code_example USB_DEVICE_STATE_ADDRESS
        (trans_code_example USB_DEVICE_TRANS_DEV_CONFIGURED) = some true ∧
      usbctrl_next_state trans_code_example USB_DEVICE_STATE_ADDRESS
        (trans_code_example USB_DEVICE_TRANS_DEV_CONFIGURED) =
        some USB_DEVICE_STATE_CONFIGURED :=
  (C15_enumeration_happy_path trans_code_example trans_code_example_injective).2.2.2.1

/-! ## Source states of each target state -/

/-- Counterexample to C16: under a concrete coding, `bus_active` in the valid state
suspended_power, which is not attached, leads to powered. -/
theorem C16_toward_powered_counterexample :
    USB_DEVICE_STATE_SUSPENDED_POWER < USB_DEVICE_STATE_INVALID ∧
      trans_code_example USB_DEVICE_TRANS_BUS_ACTIVE ≠ 0xff ∧
      usbctrl_next_state trans_code_example USB_DEVICE_STATE_SUSPENDED_POWER
        (trans_code_example USB_DEVICE_TRANS_BUS_ACTIVE) = some USB_DEVICE_STATE_POWERED ∧
      USB_DEVICE_STATE_SUSPENDED_POWER ≠ USB_DEVICE_STATE_ATTACHED := by
  decide

/-- C16 (amended): a transition toward powered comes only from attached or from
suspended_power. For every valid state `s` and every request code `e`, if the next state is
powered then `s` is attached or suspended_power; and both occur, by `hub_configured` in
attached and by `bus_active` in suspended_power. -/
theorem C16_toward_powered (code : usb_device_trans_t → Nat) (s e : Nat)
    (hs : s < USB_DEVICE_STATE_INVALID) :
    (usbctrl_next_state code s e = some USB_DEVICE_STATE_POWERED →
        s = USB_DEVICE_STATE_ATTACHED ∨ s = USB_DEVICE_STATE_SUSPENDED_POWER) ∧
      usbctrl_next_state code USB_DEVICE_STATE_ATTACHED
        (code USB_DEVICE_TRANS_HUB_CONFIGURED) = some USB_DEVICE_STATE_POWERED ∧
      usbctrl_next_state code USB_DEVICE_STATE_SUSPENDED_POWER
        (code USB_DEVICE_TRANS_BUS_ACTIVE) = some USB_DEVICE_STATE_POWERED := by
  simp only [USB_DEVICE_STATE_INVALID] at hs
  refine ⟨?_, ?_, ?_⟩
  · interval_cases s <;>
      simp only [usbctrl_next_state, usb_automaton, usbctrl_next_state_loop,
        MAX_TRANSITION_STATE, USB_DEVICE_STATE_ATTACHED, USB_DEVICE_STATE_POWERED,
        USB_DEVICE_STATE_SUSPENDED_POWER, USB_DEVICE_STATE_SUSPENDED_DEFAULT,
        USB_DEVICE_STATE_SUSPENDED_ADDRESS, USB_DEVICE_STATE_SUSPENDED_CONFIGURED,
        USB_DEVICE_STATE_DEFAULT, USB_DEVICE_STATE_ADDRESS, USB_DEVICE_STATE_CONFIGURED] <;>
      simp <;> split_ifs <;> simp_all
  · simp [usbctrl_next_state, usb_automaton, usbctrl_next_state_loop, MAX_TRANSITION_STATE,
      USB_DEVICE_STATE_ATTACHED]
  · simp [usbctrl_next_state, usb_automaton, usbctrl_next_state_loop, MAX_TRANSITION_STATE,
      USB_DEVICE_STATE_SUSPENDED_POWER]

/-- Witness of C16 (amended): `bus_active` in suspended_power, under a concrete coding. -/
theorem C16_toward_powered_witness :
    2 < USB_DEVICE_STATE_INVALID ∧
      (usbctrl_next_state trans_code_example 2 3 = some USB_DEVICE_STATE_POWERED →
        2 = USB_DEVICE_STATE_ATTACHED ∨ 2 = USB_DEVICE_STATE_SUSPENDED_POWER) :=
  ⟨by decide, (C16_toward_powered trans_code_example 2 3 (by decide)).1⟩

/-- Counterexample to C17: under a concrete coding, `reset` in the valid state
suspended_power, which is none of the seven states listed, leads to default. -/
theorem C17_toward_default_counterexample :
    USB_DEVICE_STATE_SUSPENDED_POWER < USB_DEVICE_STATE_INVALID ∧
      trans_code_example USB_DEVICE_TRANS_RESET ≠ 0xff ∧
      usbctrl_next_state trans_code_example USB_DEVICE_STATE_SUSPENDED_POWER
        (trans_code_example USB_DEVICE_TRANS_RESET) = some USB_DEVICE_STATE_DEFAULT ∧
      ¬ (USB_DEVICE_STATE_SUSPENDED_POWER = USB_DEVICE_STATE_POWERED ∨
        USB_DEVICE_STATE_SUSPENDED_POWER = USB_DEVICE_STATE_DEFAULT ∨
        USB_DEVICE_STATE_SUSPENDED_POWER = USB_DEVICE_STATE_ADDRESS ∨
        USB_DEVICE_STATE_SUSPENDED_POWER = USB_DEVICE_STATE_CONFIGURED ∨
        USB_DEVICE_STATE_SUSPENDED_POWER = USB_DEVICE_STATE_SUSPENDED_DEFAULT ∨
        USB_DEVICE_STATE_SUSPENDED_POWER = USB_DEVICE_STATE_SUSPENDED_ADDRESS ∨
        USB_DEVICE_STATE_SUSPENDED_POWER = USB_DEVICE_STATE_SUSPENDED_CONFIGURED) := by
  decide

/-- C17 (amended): a transition toward default comes only from powered, default, address,
configured or one of the four suspended states, suspended_power included. For every valid
state `s` and every request code `e`, if the next state is default then `s` is one of these
eight states (every valid state but attached); and `reset` in suspended_power does lead to
default. -/
theorem C17_toward_default (code : usb_device_trans_t → Nat)
    (hinj : Function.Injective code) (s e : Nat) (hs : s < USB_DEVICE_STATE_INVALID) :
    (usbctrl_next_state code s e = some USB_DEVICE_STATE_DEFAULT →
        s = USB_DEVICE_STATE_POWERED ∨ s = USB_DEVICE_STATE_DEFAULT ∨
        s = USB_DEVICE_STATE_ADDRESS ∨ s = USB_DEVICE_STATE_CONFIGURED ∨
        s = USB_DEVICE_STATE_SUSPENDED_POWER ∨ s = USB_DEVICE_STATE_SUSPENDED_DEFAULT ∨
        s = USB_DEVICE_STATE_SUSPENDED_ADDRESS ∨
        s = USB_DEVICE_STATE_SUSPENDED_CONFIGURED) ∧
      usbctrl_next_state code USB_DEVICE_STATE_SUSPENDED_POWER
        (code USB_DEVICE_TRANS_RESET) = some USB_DEVICE_STATE_DEFAULT := by
  simp only [USB_DEVICE_STATE_INVALID] at hs
  refine ⟨?_, ?_⟩
  · interval_cases s <;>
      simp only [usbctrl_next_state, usb_automaton, usbctrl_next_state_loop,
        MAX_TRANSITION_STATE, USB_DEVICE_STATE_ATTACHED, USB_DEVICE_STATE_POWERED,
        USB_DEVICE_STATE_SUSPENDED_POWER, USB_DEVICE_STATE_SUSPENDED_DEFAULT,
        USB_DEVICE_STATE_SUSPENDED_ADDRESS, USB_DEVICE_STATE_SUSPENDED_CONFIGURED,
        USB_DEVICE_STATE_DEFAULT, USB_DEVICE_STATE_ADDRESS, USB_DEVICE_STATE_CONFIGURED] <;>
      simp
    split_ifs <;> simp_all
  · simp [usbctrl_next_state, usb_automaton, usbctrl_next_state_loop, MAX_TRANSITION_STATE,
      hinj.eq_iff, USB_DEVICE_STATE_SUSPENDED_POWER]

/-- Witness of C17 (amended): `reset` in suspended_power, under a concrete coding. -/
theorem C17_toward_default_witness :
    2 < USB_DEVICE_STATE_INVALID ∧
      usbctrl_next_state trans_code_example USB_DEVICE_STATE_SUSPENDED_POWER
        (trans_code_example USB_DEVICE_TRANS_RESET) = some USB_DEVICE_STATE_DEFAULT :=
  ⟨by decide, (C17_toward_default trans_code_example trans_code_example_injective 2 1
    (by decide)).2⟩

/-- C18: the transitions toward address, configured and the suspended default, address and
configured states come only from the source states that the metACSL properties of the source
allow. For every valid state `s` and every request code `e`: next state address implies `s`
is default, configured or suspended_address; next state configured implies `s` is address or
suspended_configured; next state suspended_default implies `s` is default; next state
suspended_address implies `s` is address; next state suspended_configured implies `s` is
configured. -/
theorem C18_toward_other_states (code : usb_device_trans_t → Nat) (s e : Nat)
    (hs : s < USB_DEVICE_STATE_INVALID) :
    (usbctrl_next_state code s e = some USB_DEVICE_STATE_ADDRESS →
        s = USB_DEVICE_STATE_DEFAULT ∨ s = USB_DEVICE_STATE_CONFIGURED ∨
        s = USB_DEVICE_STATE_SUSPENDED_ADDRESS) ∧
      (usbctrl_next_state code s e = some USB_DEVICE_STATE_CONFIGURED →
        s = USB_DEVICE_STATE_ADDRESS ∨ s = USB_DEVICE_STATE_SUSPENDED_CONFIGURED) ∧
      (usbctrl_next_state code s e = some USB_DEVICE_STATE_SUSPENDED_DEFAULT →
        s = USB_DEVICE_STATE_DEFAULT) ∧
      (usbctrl_next_state code s e = some USB_DEVICE_STATE_SUSPENDED_ADDRESS →
        s = USB_DEVICE_STATE_ADDRESS) ∧
      (usbctrl_next_state code s e = some USB_DEVICE_STATE_SUSPENDED_CONFIGURED →
        s = USB_DEVICE_STATE_CONFIGURED) := by
  simp only [USB_DEVICE_STATE_INVALID] at hs
  interval_cases s <;>
    simp only [usbctrl_next_state, usb_automaton, usbctrl_next_state_loop,
      MAX_TRANSITION_STATE, USB_DEVICE_STATE_ATTACHED, USB_DEVICE_STATE_POWERED,
      USB_DEVICE_STATE_SUSPENDED_POWER, USB_DEVICE_STATE_SUSPENDED_DEFAULT,
      USB_DEVICE_STATE_SUSPENDED_ADDRESS, USB_DEVICE_STATE_SUSPENDED_CONFIGURED,
      USB_DEVICE_STATE_DEFAULT, USB_DEVICE_STATE_ADDRESS, USB_DEVICE_STATE_CONFIGURED] <;>
    simp <;> split_ifs <;> simp_all

/-- Witness of C18: `device_deconfigured` in configured, under a concrete coding, leads to
address, and configured is among the allowed sources of address. -/
theorem C18_toward_other_states_witness :
    8 < USB_DEVICE_STATE_INVALID ∧
      (usbctrl_next_state trans_code_example 8 9 = some USB_DEVICE_STATE_ADDRESS →
        8 = USB_DEVICE_STATE_DEFAULT ∨ 8 = USB_DEVICE_STATE_CONFIGURED ∨
        8 = USB_DEVICE_STATE_SUSPENDED_ADDRESS) :=
  ⟨by decide, (C18_toward_other_states trans_code_example 8 9 (by decide)).1⟩

/-! ## The padding code and the shape of the table -/

/-- C19: for the padding request code `0xff` the two lookups disagree. For every state `s`
of the table (attached to configured, and invalid), `usbctrl_is_valid_transition` returns
true, because it matches a padding entry, while `usbctrl_next_state` returns `0xff`; so the
equivalence between a true answer of the first and an answer other than `0xff` of the second
does not hold for the code `0xff`. -/
theorem C19_padding_code_disagreement (code : usb_device_trans_t → Nat)
    (hlt : ∀ t, code t < 0xff) (s : Nat) (hs : s ≤ USB_DEVICE_STATE_INVALID) :
    usbctrl_is_valid_transition code s 0xff = some true ∧
      usbctrl_next_state code s 0xff = some 0xff ∧
      ¬ ∃ b r, usbctrl_is_valid_transition code s 0xff = some b ∧
        usbctrl_next_state code s 0xff = some r ∧ (b = true ↔ r ≠ 0xff) := by
  have hpad : ∀ t, ¬ (code t = 255) := fun t h => absurd (hlt t) (by omega)
  simp only [USB_DEVICE_STATE_INVALID] at hs
  interval_cases s <;>
    simp [usbctrl_next_state, usbctrl_is_valid_transition, usb_automaton,
      usbctrl_next_state_loop, usbctrl_is_valid_transition_loop, MAX_TRANSITION_STATE, hpad]

/-- Witness of C19: the padding code in the configured state, under a concrete coding. -/
theorem C19_padding_code_disagreement_witness :
    8 ≤ USB_DEVICE_STATE_INVALID ∧
      usbctrl_is_valid_transition trans_code_example 8 0xff = some true ∧
      usbctrl_next_state trans_code_example 8 0xff = some 0xff :=
  have h := C19_padding_code_disagreement trans_code_example trans_code_example_lt 8
    (by decide)
  ⟨by decide, h.1, h.2.1⟩

/-- C20: the automaton table is deterministic and well formed. The table has one row per
state; in every row, two entries at different positions never carry the same request code
unless that code is the padding `0xff`; every entry whose request is not `0xff` has its
target in the valid set; every entry whose request is `0xff` has target `0xff`; hence for a
request code other than `0xff`, the first-match result of `usbctrl_next_state` is the target
of every entry of the row that carries this code: the target is unique. -/
theorem C20_table_well_formed (code : usb_device_trans_t → Nat)
    (hinj : Function.Injective code) (hlt : ∀ t, code t < 0xff) (s : Nat)
    (hs : s ≤ USB_DEVICE_STATE_INVALID) :
    (usb_automaton code).length = USB_DEVICE_STATE_INVALID + 1 ∧
      ∃ row, (usb_automaton code)[s]? = some row ∧
        row.req_trans.Pairwise (fun t u => t.request = u.request → t.request = 0xff) ∧
        (∀ t ∈ row.req_trans, t.request ≠ 0xff →
          USB_DEVICE_STATE_ATTACHED ≤ t.target_state ∧
            t.target_state < USB_DEVICE_STATE_INVALID) ∧
        (∀ t ∈ row.req_trans, t.request = 0xff → t.target_state = 0xff) ∧
        (∀ e t, e ≠ 0xff → t ∈ row.req_trans → t.request = e →
          usbctrl_next_state code s e = some t.target_state) := by
  have hpad : ∀ t, ¬ (code t = 255) := fun t h => absurd (hlt t) (by omega)
  have hpad2 : ∀ t, ¬ (255 = code t) := fun t h => absurd (hlt t) (by omega)
  have hshape : ∃ row, (usb_automaton code)[s]? = some row ∧
      row.req_trans.length = MAX_TRANSITION_STATE ∧
      row.req_trans.Pairwise (fun t u => t.request = u.request → t.request = 0xff) ∧
      (∀ t ∈ row.req_trans, t.request ≠ 0xff →
        USB_DEVICE_STATE_ATTACHED ≤ t.target_state ∧
          t.target_state < USB_DEVICE_STATE_INVALID) ∧
      (∀ t ∈ row.req_trans, t.request = 0xff → t.target_state = 0xff) := by
    simp only [USB_DEVICE_STATE_INVALID] at hs
    interval_cases s <;>
      simp [usb_automaton, MAX_TRANSITION_STATE, hinj.eq_iff, hpad, hpad2,
        USB_DEVICE_STATE_ATTACHED, USB_DEVICE_STATE_POWERED, USB_DEVICE_STATE_SUSPENDED_POWER,
        USB_DEVICE_STATE_SUSPENDED_DEFAULT, USB_DEVICE_STATE_SUSPENDED_ADDRESS,
        USB_DEVICE_STATE_SUSPENDED_CONFIGURED, USB_DEVICE_STATE_DEFAULT,
        USB_DEVICE_STATE_ADDRESS, USB_DEVICE_STATE_CONFIGURED, USB_DEVICE_STATE_INVALID]
  obtain ⟨row, hrow, hlen, hpw, htgt, hpadt⟩ := hshape
  refine ⟨by simp [usb_automaton, USB_DEVICE_STATE_INVALID], row, hrow, hpw, htgt, hpadt, ?_⟩
  intro e t he ht hte
  have hns : usbctrl_next_state code s e =
      usbctrl_next_state_loop row.req_trans e MAX_TRANSITION_STATE 0 := by
    simp [usbctrl_next_state, hrow]
  have hidx := List.pairwise_iff_getElem.mp hpw
  obtain ⟨k, hk⟩ := List.mem_iff_getElem?.mp ht
  obtain ⟨hkl, hkt⟩ := List.getElem?_eq_some.mp hk
  rcases loops_first_match row.req_trans e MAX_TRANSITION_STATE 0 (by omega) with
    ⟨j, t0, _, _, h3, h4, h5, _⟩ | ⟨h1, _, _⟩
  · obtain ⟨hjl, hjt⟩ := List.getElem?_eq_some.mp h3
    rw [hns, h5]
    rcases Nat.lt_trichotomy j k with hjk | hjk | hjk
    · have h := hidx j k hjl hkl hjk
      rw [hjt, hkt] at h
      exact absurd (h4 ▸ h (h4.trans hte.symm)) he
    · subst hjk
      rw [← hjt, ← hkt]
    · have h := hidx k j hkl hjl hjk
      rw [hjt, hkt] at h
      exact absurd (hte ▸ h (hte.trans h4.symm)) he
  · exact absurd hte (h1 k t (Nat.zero_le k) (by omega) hk)

/-- Witness of C20: the powered row, under a concrete coding. -/
theorem C20_table_well_formed_witness :
    1 ≤ USB_DEVICE_STATE_INVALID ∧
      (usb_automaton trans_code_example).length = USB_DEVICE_STATE_INVALID + 1 ∧
      ∃ row, (usb_automaton trans_code_example)[1]? = some row ∧
        row.req_trans.Pairwise (fun t u => t.request = u.request → t.request = 0xff) ∧
        (∀ t ∈ row.req_trans, t.request ≠ 0xff →
          USB_DEVICE_STATE_ATTACHED ≤ t.target_state ∧
            t.target_state < USB_DEVICE_STATE_INVALID) ∧
        (∀ t ∈ row.req_trans, t.request = 0xff → t.target_state = 0xff) ∧
        (∀ e t, e ≠ 0xff → t ∈ row.req_trans → t.request = e →
          usbctrl_next_state trans_code_example 1 e = some t.target_state) :=
  ⟨by decide, C20_table_well_formed trans_code_example trans_code_example_injective
    trans_code_example_lt 1 (by decide)⟩

/-! ## Closure and reachability -/

/-- C21: the post-reset states are closed under the table. For every state `s` among default,
address, configured, suspended_default, suspended_address and suspended_configured and every
request code `e`, `usbctrl_next_state` returns `0xff` or a member of the same set; it never
returns attached, powered or suspended_power. -/
theorem C21_post_reset_closed (code : usb_device_trans_t → Nat) (s e : Nat)
    (hs : s = USB_DEVICE_STATE_DEFAULT ∨ s = USB_DEVICE_STATE_ADDRESS ∨
      s = USB_DEVICE_STATE_CONFIGURED ∨ s = USB_DEVICE_STATE_SUSPENDED_DEFAULT ∨
      s = USB_DEVICE_STATE_SUSPENDED_ADDRESS ∨ s = USB_DEVICE_STATE_SUSPENDED_CONFIGURED) :
    ∃ r, usbctrl_next_state code s e = some r ∧
      (r = 0xff ∨ r = USB_DEVICE_STATE_DEFAULT ∨ r = USB_DEVICE_STATE_ADDRESS ∨
        r = USB_DEVICE_STATE_CONFIGURED ∨ r = USB_DEVICE_STATE_SUSPENDED_DEFAULT ∨
        r = USB_DEVICE_STATE_SUSPENDED_ADDRESS ∨
        r = USB_DEVICE_STATE_SUSPENDED_CONFIGURED) ∧
      r ≠ USB_DEVICE_STATE_ATTACHED ∧ r ≠ USB_DEVICE_STATE_POWERED ∧
      r ≠ USB_DEVICE_STATE_SUSPENDED_POWER := by
  rcases hs with rfl | rfl | rfl | rfl | rfl | rfl <;>
    simp only [usbctrl_next_state, usb_automaton, usbctrl_next_state_loop,
      MAX_TRANSITION_STATE, USB_DEVICE_STATE_ATTACHED, USB_DEVICE_STATE_POWERED,
      USB_DEVICE_STATE_SUSPENDED_POWER, USB_DEVICE_STATE_SUSPENDED_DEFAULT,
      USB_DEVICE_STATE_SUSPENDED_ADDRESS, USB_DEVICE_STATE_SUSPENDED_CONFIGURED,
      USB_DEVICE_STATE_DEFAULT, USB_DEVICE_STATE_ADDRESS, USB_DEVICE_STATE_CONFIGURED] <;>
    simp <;> split_ifs <;> simp

/-- Witness of C21: `device_deconfigured` in the configured state, under a concrete coding. -/
theorem C21_post_reset_closed_witness :
    ∃ r, usbctrl_next_state trans_code_example USB_DEVICE_STATE_CONFIGURED 9 = some r ∧
      (r = 0xff ∨ r = USB_DEVICE_STATE_DEFAULT ∨ r = USB_DEVICE_STATE_ADDRESS ∨
        r = USB_DEVICE_STATE_CONFIGURED ∨ r = USB_DEVICE_STATE_SUSPENDED_DEFAULT ∨
        r = USB_DEVICE_STATE_SUSPENDED_ADDRESS ∨
        r = USB_DEVICE_STATE_SUSPENDED_CONFIGURED) ∧
      r ≠ USB_DEVICE_STATE_ATTACHED ∧ r ≠ USB_DEVICE_STATE_POWERED ∧
      r ≠ USB_DEVICE_STATE_SUSPENDED_POWER :=
  C21_post_reset_closed trans_code_example USB_DEVICE_STATE_CONFIGURED 9
    (Or.inr (Or.inr (Or.inl rfl)))

/-- Whatever the request code, the lookup in a valid state returns a valid state or `0xff`. -/
theorem usbctrl_next_state_range (code : usb_device_trans_t → Nat) (s e : Nat)
    (hs : s < USB_DEVICE_STATE_INVALID) :
    ∃ r, usbctrl_next_state code s e = some r ∧ (r < USB_DEVICE_STATE_INVALID ∨ r = 0xff) := by
  obtain ⟨row, hrow, hlen, htgt⟩ := usb_automaton_targets code s (Nat.le_of_lt hs)
  have hns : usbctrl_next_state code s e =
      usbctrl_next_state_loop row.req_trans e MAX_TRANSITION_STATE 0 := by
    simp [usbctrl_next_state, hrow]
  rcases loops_first_match row.req_trans e MAX_TRANSITION_STATE 0 (by omega) with
    ⟨j, t, _, _, h3, _, h5, _⟩ | ⟨_, h2, _⟩
  · refine ⟨t.target_state, hns.trans h5, ?_⟩
    rcases htgt t (List.getElem?_mem h3) with h | ⟨_, h⟩
    · exact Or.inl h
    · exact Or.inr h
  · exact ⟨0xff, hns.trans h2, Or.inr rfl⟩

/-- Following the lookup from the value `0xff`, which is not a row of the table, never gives
the invalid state. -/
theorem automaton_follow_from_padding (code : usb_device_trans_t → Nat) (events : List Nat) :
    automaton_follow code 0xff events ≠ some USB_DEVICE_STATE_INVALID := by
  cases events with
  | nil => simp [automaton_follow, USB_DEVICE_STATE_INVALID]
  | cons e es => simp [automaton_follow, usbctrl_next_state, usb_automaton]

/-- Following the lookup from a valid state never gives the invalid state. -/
theorem automaton_follow_never_invalid (code : usb_device_trans_t → Nat)
    (events : List Nat) :
    ∀ s, s < USB_DEVICE_STATE_INVALID →
      automaton_follow code s events ≠ some USB_DEVICE_STATE_INVALID := by
  induction events with
  | nil =>
    intro s hs h
    simp only [automaton_follow, Option.some.injEq] at h
    omega
  | cons e es ih =>
    intro s hs
    obtain ⟨r, hr, hrv | hrp⟩ := usbctrl_next_state_range code s e hs
    · simpa [automaton_follow, hr] using ih r hrv
    · subst hrp
      simpa [automaton_follow, hr] using automaton_follow_from_padding code es

/-- C22: every one of the nine valid states is reached from attached by following
`usbctrl_next_state` along some finite sequence of events, and no sequence of request codes
reaches the invalid state. -/
theorem C22_reachability (code : usb_device_trans_t → Nat)
    (hinj : Function.Injective code) (s : Nat) (hs : s < USB_DEVICE_STATE_INVALID) :
    (∃ es : List usb_device_trans_t,
        automaton_follow code USB_DEVICE_STATE_ATTACHED (es.map code) = some s) ∧
      ∀ events : List Nat,
        automaton_follow code USB_DEVICE_STATE_ATTACHED events ≠
          some USB_DEVICE_STATE_INVALID := by
  refine ⟨?_, fun events =>
    automaton_follow_never_invalid code events USB_DEVICE_STATE_ATTACHED (by decide)⟩
  have hev : ∀ es : List usb_device_trans_t, ∀ r,
      automaton_follow code USB_DEVICE_STATE_ATTACHED (es.map code) = some r →
      ∃ es : List usb_device_trans_t,
        automaton_follow code USB_DEVICE_STATE_ATTACHED (es.map code) = some r :=
    fun es _ h => ⟨es, h⟩
  simp only [USB_DEVICE_STATE_INVALID] at hs
  interval_cases s
  · exact hev [] _ rfl
  · apply hev [USB_DEVICE_TRANS_HUB_CONFIGURED]
    simp [automaton_follow, usbctrl_next_state, usb_automaton, usbctrl_next_state_loop,
      MAX_TRANSITION_STATE, hinj.eq_iff, USB_DEVICE_STATE_ATTACHED, USB_DEVICE_STATE_POWERED]
  · apply hev [USB_DEVICE_TRANS_HUB_CONFIGURED, USB_DEVICE_TRANS_BUS_INACTIVE]
    simp [automaton_follow, usbctrl_next_state, usb_automaton, usbctrl_next_state_loop,
      MAX_TRANSITION_STATE, hinj.eq_iff, USB_DEVICE_STATE_ATTACHED, USB_DEVICE_STATE_POWERED,
      USB_DEVICE_STATE_SUSPENDED_POWER]
  · apply hev [USB_DEVICE_TRANS_HUB_CONFIGURED, USB_DEVICE_TRANS_RESET,
      USB_DEVICE_TRANS_BUS_INACTIVE]
    simp [automaton_follow, usbctrl_next_state, usb_automaton, usbctrl_next_state_loop,
      MAX_TRANSITION_STATE, hinj.eq_iff, USB_DEVICE_STATE_ATTACHED, USB_DEVICE_STATE_POWERED,
      USB_DEVICE_STATE_DEFAULT, USB_DEVICE_STATE_SUSPENDED_DEFAULT]
  · apply hev [USB_DEVICE_TRANS_HUB_CONFIGURED, USB_DEVICE_TRANS_RESET,
      USB_DEVICE_TRANS_ADDRESS_ASSIGNED, USB_DEVICE_TRANS_BUS_INACTIVE]
    simp [automaton_follow, usbctrl_next_state, usb_automaton, usbctrl_next_state_loop,
      MAX_TRANSITION_STATE, hinj.eq_iff, USB_DEVICE_STATE_ATTACHED, USB_DEVICE_STATE_POWERED,
      USB_DEVICE_STATE_DEFAULT, USB_DEVICE_STATE_ADDRESS, USB_DEVICE_STATE_SUSPENDED_ADDRESS]
  · apply hev [USB_DEVICE_TRANS_HUB_CONFIGURED, USB_DEVICE_TRANS_RESET,
      USB_DEVICE_TRANS_ADDRESS_ASSIGNED, USB_DEVICE_TRANS_DEV_CONFIGURED,
      USB_DEVICE_TRANS_BUS_INACTIVE]
    simp [automaton_follow, usbctrl_next_state, usb_automaton, usbctrl_next_state_loop,
      MAX_TRANSITION_STATE, hinj.eq_iff, USB_DEVICE_STATE_ATTACHED, USB_DEVICE_STATE_POWERED,
      USB_DEVICE_STATE_DEFAULT, USB_DEVICE_STATE_ADDRESS, USB_DEVICE_STATE_CONFIGURED,
      USB_DEVICE_STATE_SUSPENDED_CONFIGURED]
  · apply hev [USB_DEVICE_TRANS_HUB_CONFIGURED, USB_DEVICE_TRANS_RESET]
    simp [automaton_follow, usbctrl_next_state, usb_automaton, usbctrl_next_state_loop,
      MAX_TRANSITION_STATE, hinj.eq_iff, USB_DEVICE_STATE_ATTACHED, USB_DEVICE_STATE_POWERED,
      USB_DEVICE_STATE_DEFAULT]
  · apply hev [USB_DEVICE_TRANS_HUB_CONFIGURED, USB_DEVICE_TRANS_RESET,
      USB_DEVICE_TRANS_ADDRESS_ASSIGNED]
    simp [automaton_follow, usbctrl_next_state, usb_automaton, usbctrl_next_state_loop,
      MAX_TRANSITION_STATE, hinj.eq_iff, USB_DEVICE_STATE_ATTACHED, USB_DEVICE_STATE_POWERED,
      USB_DEVICE_STATE_DEFAULT, USB_DEVICE_STATE_ADDRESS]
  · apply hev [USB_DEVICE_TRANS_HUB_CONFIGURED, USB_DEVICE_TRANS_RESET,
      USB_DEVICE_TRANS_ADDRESS_ASSIGNED, USB_DEVICE_TRANS_DEV_CONFIGURED]
    simp [automaton_follow, usbctrl_next_state, usb_automaton, usbctrl_next_state_loop,
      MAX_TRANSITION_STATE, hinj.eq_iff, USB_DEVICE_STATE_ATTACHED, USB_DEVICE_STATE_POWERED,
      USB_DEVICE_STATE_DEFAULT, USB_DEVICE_STATE_ADDRESS, USB_DEVICE_STATE_CONFIGURED]

/-- Witness of C22: the suspended_configured state is reached under a concrete coding. -/
theorem C22_reachability_witness :
    5 < USB_DEVICE_STATE_INVALID ∧
      ∃ es : List usb_device_trans_t,
        automaton_follow trans_code_example USB_DEVICE_STATE_ATTACHED
          (es.map trans_code_example) = some 5 :=
  ⟨by decide, (C22_reachability trans_code_example trans_code_example_injective 5
    (by decide)).1⟩

/-- C23: the invalid state has no outgoing transition. For every request code `e` other than
the padding code, `usbctrl_next_state` in the invalid state returns `0xff` and
`usbctrl_is_valid_transition` returns false. -/
theorem C23_invalid_state_is_stuck (code : usb_device_trans_t → Nat) (e : Nat)
    (he : e ≠ 0xff) :
    usbctrl_next_state code USB_DEVICE_STATE_INVALID e = some 0xff ∧
      usbctrl_is_valid_transition code USB_DEVICE_STATE_INVALID e = some false := by
  have he2 : ¬ (255 = e) := fun h => he h.symm
  simp [usbctrl_next_state, usbctrl_is_valid_transition, usb_automaton,
    usbctrl_next_state_loop, usbctrl_is_valid_transition_loop, MAX_TRANSITION_STATE,
    USB_DEVICE_STATE_INVALID, he2]

/-- Witness of C23: the reset event in the invalid state, under a concrete coding. -/
theorem C23_invalid_state_is_stuck_witness :
    trans_code_example USB_DEVICE_TRANS_RESET ≠ 0xff ∧
      usbctrl_next_state trans_code_example USB_DEVICE_STATE_INVALID
        (trans_code_example USB_DEVICE_TRANS_RESET) = some 0xff ∧
      usbctrl_is_valid_transition trans_code_example USB_DEVICE_STATE_INVALID
        (trans_code_example USB_DEVICE_TRANS_RESET) = some false :=
  ⟨by decide, C23_invalid_state_is_stuck trans_code_example
    (trans_code_example USB_DEVICE_TRANS_RESET) (by decide)⟩

end usbctrl
